import Mathlib

/-!
Shallow embedding of the round-bounded tool-calling orchestration engine of
`backend/ai_generator.py` (class `AIGenerator`).

The engine is deterministic once the behaviour of its two external
collaborators is fixed:
  * the LLM provider (`self.client.messages.create`), modelled as a function
    from the index of the call (how many LLM calls were made before it) to
    either a raised exception (`Except.error msg`) or a response;
  * the tool dispatcher (`tool_manager.execute_tool`), modelled as a function
    from the index of the dispatch to either a raised exception or a result
    string.
Both are packaged in an `Oracle`.  A run returns a `RunResult` holding the
answer (`Except PyError String`, where `Except.error` models a Python
exception propagating out of the public entry point), the ordered list of LLM
requests issued, the ordered list of tool dispatches, the final message log,
and a flag recording whether the post-loop fallback LLM call (the code after
the `while` loop) was executed.
-/

/-- A content block of an LLM response, mirroring the Anthropic content block
objects read by the Python code (`content_block.type`, `.id`, `.name`,
`.input`, `.text`). -/
inductive ContentBlock where
  | text (value : String)
  | tool_use (id : String) (name : String) (input : List (String × String))
deriving Repr, DecidableEq

/-- An LLM response as consumed by the engine: `stop_reason` and the ordered
content blocks. -/
structure LLMResponse where
  stop_reason : String
  content : List ContentBlock
deriving Repr, DecidableEq

/-- A tool-result block as built by `_execute_tools_and_update_state`.  In the
Python dict the `is_error` key is present only on failure; we model it as a
Bool that is `false` on the success path. -/
structure ToolResultBlock where
  tool_use_id : String
  content : String
  is_error : Bool
deriving Repr, DecidableEq

/-- Message content: the user query text, an assistant tool-use content list,
or a user message holding tool-result blocks. -/
inductive MessageContent where
  | text (s : String)
  | blocks (bs : List ContentBlock)
  | toolResults (rs : List ToolResultBlock)
deriving Repr, DecidableEq

/-- One entry of the message log (`state.messages`). -/
structure Message where
  role : String
  content : MessageContent
deriving Repr, DecidableEq

/-- One request to `client.messages.create`: the `system` text, the `messages`
log, and the optional `tools` / `tool_choice` parameters (`none` when the key
is omitted from the request). -/
structure LLMRequest where
  system : String
  messages : List Message
  tools : Option (List String)
  tool_choice : Option String
deriving Repr, DecidableEq

/-- One invocation of `tool_manager.execute_tool`: tool name and keyword
arguments. -/
structure Dispatch where
  name : String
  input : List (String × String)
deriving Repr, DecidableEq

/-- A Python exception escaping the engine: an API exception re-raised from an
unguarded `messages.create` call, an `IndexError` from `content[0]` on an
empty content list, or an `AttributeError` from `.text` on a non-text block. -/
inductive PyError where
  | apiExc (msg : String)
  | indexError
  | attributeError
deriving Repr, DecidableEq

/-- Behaviour of the two external collaborators.  `llm i` is the outcome of
the `i`-th `messages.create` call of the query (`Except.error` models the call
raising); `tool d` is the outcome of the `d`-th `execute_tool` dispatch. -/
structure Oracle where
  llm : Nat → Except String LLMResponse
  tool : Nat → Except String String

/-- Mirrors the `ConversationState` dataclass (the `base_params` dict is
represented by `system_prompt`, which is its only varying part; `tool_manager`
presence is the Bool `hasToolManager`). -/
structure ConversationState where
  messages : List Message
  system_prompt : String
  round_count : Nat
  max_rounds : Nat
  tools : Option (List String)
  hasToolManager : Bool
deriving Repr, DecidableEq

/-- Observable trace of a run: LLM requests and tool dispatches, in order. -/
structure Trace where
  requests : List LLMRequest
  dispatches : List Dispatch
deriving Repr, DecidableEq

instance {ε α : Type} [DecidableEq ε] [DecidableEq α] : DecidableEq (Except ε α) := fun a b =>
  match a, b with
  | .error x, .error y =>
    if h : x = y then isTrue (by rw [h]) else isFalse (by intro hc; cases hc; exact h rfl)
  | .error _, .ok _ => isFalse (by intro hc; cases hc)
  | .ok _, .error _ => isFalse (by intro hc; cases hc)
  | .ok x, .ok y =>
    if h : x = y then isTrue (by rw [h]) else isFalse (by intro hc; cases hc; exact h rfl)

/-- Result of a full run of `generate_response_with_rounds`. -/
structure RunResult where
  result : Except PyError String
  requests : List LLMRequest
  dispatches : List Dispatch
  messages : List Message
  usedFallback : Bool
deriving Repr, DecidableEq

/-- Python truthiness of the `tools` argument: truthy iff not `None` and a
non-empty list. -/
def truthyTools : Option (List String) → Bool
  | none => false
  | some l => !l.isEmpty

/-- `response.content[0].text`: `IndexError` on an empty list,
`AttributeError` when the first block is a tool-use block (it has no `.text`
attribute). -/
def contentText : List ContentBlock → Except PyError String
  | [] => .error .indexError
  | .text v :: _ => .ok v
  | .tool_use _ _ _ :: _ => .error .attributeError

/-- The request built at the top of `_execute_single_round` (lines 140-148):
tools and the `auto` tool choice are attached iff both `state.tools` is truthy
and a tool manager is present. -/
def roundRequest (st : ConversationState) : LLMRequest :=
  if truthyTools st.tools && st.hasToolManager then
    { system := st.system_prompt, messages := st.messages,
      tools := st.tools, tool_choice := some "auto" }
  else
    { system := st.system_prompt, messages := st.messages,
      tools := none, tool_choice := none }

/-- The request of a final call made without tools (lines 121-125 and
167-170): base params plus the accumulated messages, no tools key. -/
def finalRequest (st : ConversationState) : LLMRequest :=
  { system := st.system_prompt, messages := st.messages,
    tools := none, tool_choice := none }

/-- The `for content_block in response.content` loop of
`_execute_tools_and_update_state` (lines 194-222): dispatches each tool-use
block in order, accumulating result blocks; on a dispatch exception it appends
an error block to the local list and returns `false` immediately (so the
accumulated results are never flushed to the message log); once all blocks are
processed it appends the combined user message iff the result list is
non-empty. -/
def executeToolsLoop (o : Oracle) (blocks : List ContentBlock)
    (tool_results : List ToolResultBlock) (st : ConversationState) (tr : Trace) :
    Bool × ConversationState × Trace × List ToolResultBlock :=
  match blocks with
  | [] =>
    if tool_results.isEmpty then (true, st, tr, tool_results)
    else (true,
      { st with messages :=
          st.messages ++ [{ role := "user", content := .toolResults tool_results }] },
      tr, tool_results)
  | .text _ :: rest => executeToolsLoop o rest tool_results st tr
  | .tool_use id name input :: rest =>
    let tr1 : Trace :=
      { tr with dispatches := tr.dispatches ++ [{ name := name, input := input }] }
    match o.tool tr.dispatches.length with
    | .ok result =>
      executeToolsLoop o rest
        (tool_results ++ [{ tool_use_id := id, content := result, is_error := false }])
        st tr1
    | .error e =>
      (false, st, tr1,
        tool_results ++
          [{ tool_use_id := id, content := "Tool execution failed: " ++ e,
             is_error := true }])

/-- `_execute_tools_and_update_state` (lines 179-222): appends the assistant
tool-use message, then runs the dispatch loop.  The fourth component is the
local `tool_results` list at return time. -/
def execute_tools_and_update_state (o : Oracle) (response : LLMResponse)
    (st : ConversationState) (tr : Trace) :
    Bool × ConversationState × Trace × List ToolResultBlock :=
  executeToolsLoop o response.content []
    { st with messages :=
        st.messages ++ [{ role := "assistant", content := .blocks response.content }] }
    tr

/-- `_should_continue_rounds` (lines 224-243). -/
def should_continue_rounds (st : ConversationState) : Bool × Option String :=
  if st.max_rounds - 1 ≤ st.round_count then (false, some "max_rounds_reached")
  else if !truthyTools st.tools || !st.hasToolManager then
    (false, some "no_tools_available")
  else (true, none)

/-- `_execute_single_round` (lines 129-177).  Returns the response (with
`Except.error` modelling an uncaught Python exception), the `should_continue`
flag, the termination reason, and the updated state and trace.  The first
`messages.create` call is guarded by try/except (lines 151-154); the final
no-tools call (line 171) is not, so its exception propagates. -/
def execute_single_round (o : Oracle) (st : ConversationState) (tr : Trace) :
    Except PyError String × Bool × Option String × ConversationState × Trace :=
  let tr1 : Trace := { tr with requests := tr.requests ++ [roundRequest st] }
  match o.llm tr.requests.length with
  | .error e => (.ok ("Error generating response: " ++ e), false, some "api_error", st, tr1)
  | .ok response =>
    if response.stop_reason == "tool_use" && st.hasToolManager then
      match execute_tools_and_update_state o response st tr1 with
      | (false, st2, tr2, _) =>
        (.ok "Tool execution failed", false, some "tool_error", st2, tr2)
      | (true, st2, tr2, _) =>
        match should_continue_rounds st2 with
        | (true, _) => (.ok "", true, none, st2, tr2)
        | (false, reason) =>
          let tr3 : Trace := { tr2 with requests := tr2.requests ++ [finalRequest st2] }
          match o.llm tr2.requests.length with
          | .error e => (.error (.apiExc e), false, reason, st2, tr3)
          | .ok fresp => (contentText fresp.content, false, reason, st2, tr3)
    else
      (contentText response.content, false, some "no_tool_use", st, tr1)

/-- The code after the `while` loop (lines 121-127): one final call without
tools, unguarded, returning `content[0].text`. -/
def postLoopFinal (o : Oracle) (st : ConversationState) (tr : Trace) : RunResult :=
  let tr1 : Trace := { tr with requests := tr.requests ++ [finalRequest st] }
  match o.llm tr.requests.length with
  | .error e =>
    { result := .error (.apiExc e), requests := tr1.requests,
      dispatches := tr1.dispatches, messages := st.messages, usedFallback := true }
  | .ok fresp =>
    { result := contentText fresp.content, requests := tr1.requests,
      dispatches := tr1.dispatches, messages := st.messages, usedFallback := true }

/-- The `while state.round_count < state.max_rounds` loop (lines 112-127).
`fuel` is an upper bound on the remaining iterations used to justify
termination; the run enters with `fuel = max_rounds` and each iteration
increments `round_count` and consumes one unit, so `fuel = 0` implies
`round_count = max_rounds` and the loop guard fails in Python too. -/
def roundLoop (o : Oracle) : Nat → ConversationState → Trace → RunResult
  | 0, st, tr => postLoopFinal o st tr
  | fuel + 1, st, tr =>
    if st.round_count < st.max_rounds then
      match execute_single_round o st tr with
      | (res, false, _, st2, tr2) =>
        { result := res, requests := tr2.requests, dispatches := tr2.dispatches,
          messages := st2.messages, usedFallback := false }
      | (_, true, _, st2, tr2) =>
        roundLoop o fuel { st2 with round_count := st2.round_count + 1 } tr2
    else postLoopFinal o st tr

/-- The static system prompt `AIGenerator.SYSTEM_PROMPT` (lines 20-59). -/
def SYSTEM_PROMPT : String := " You are an AI assistant specialized in course materials and educational content with access to comprehensive search tools for course information.

Available Tools:
- **search_course_content**: Search within course materials for specific content, concepts, or technical details
- **get_course_outline**: Get complete course outlines including title, course link, and all lessons with numbers and titles

Tool Usage Guidelines:
- Use search_course_content for questions about specific course content, educational materials, AND technical implementation details
- Use get_course_outline for questions about course structure, lesson lists, or complete course overviews
- **Multi-round tool usage**: You can make tool calls across up to 2 rounds to gather comprehensive information
- Use multiple tool calls to:
  - Gather complementary information from different tools
  - Search for specific details after getting general context
  - Cross-reference information from multiple sources
- Example: Search for course outline first, then search specific lessons for details
- Stop making tool calls when you have sufficient information to answer
- Synthesize tool results into accurate, fact-based responses
- If tools yield no results, state this clearly without offering alternatives

Response Protocol:
- **General knowledge questions**: Answer using existing knowledge without using tools
- **Course-specific content questions**: Use search_course_content first, then answer
- **Course outline/structure questions**: Use get_course_outline first, then answer
- **Technical implementation questions**: Use search_course_content for relevant documentation or code examples
- **No meta-commentary**:
 - Provide direct answers only — no reasoning process, tool explanations, or question-type analysis
 - Do not mention \"based on the search results\" or \"using the outline tool\"

For course outline responses, always include:
- Course title
- Course link (if available)
- Complete lesson list with numbers and titles

All responses must be:
1. **Brief, Concise and focused** - Get to the point quickly
2. **Educational** - Maintain instructional value
3. **Clear** - Use accessible language
4. **Example-supported** - Include relevant examples when they aid understanding
Provide only the direct answer to what was asked.
"

/-- The system-content construction of lines 91-96.  Python truthiness: a
supplied but empty history string behaves like `None`. -/
def systemContent (conversation_history : Option String) : String :=
  match conversation_history with
  | none => SYSTEM_PROMPT
  | some h =>
    if h == "" then SYSTEM_PROMPT
    else SYSTEM_PROMPT ++ "\n\nPrevious conversation:\n" ++ h

/-- The initial `ConversationState` of lines 99-110. -/
def initState (query : String) (system_content : String)
    (tools : Option (List String)) (tool_manager : Bool) (max_rounds : Nat) :
    ConversationState :=
  { messages := [{ role := "user", content := .text query }],
    system_prompt := system_content,
    round_count := 0,
    max_rounds := max_rounds,
    tools := tools,
    hasToolManager := tool_manager }

/-- `generate_response_with_rounds` (lines 72-127). -/
def generate_response_with_rounds (o : Oracle) (query : String)
    (conversation_history : Option String) (tools : Option (List String))
    (tool_manager : Bool) (max_rounds : Nat) : RunResult :=
  roundLoop o max_rounds
    (initState query (systemContent conversation_history) tools tool_manager max_rounds)
    { requests := [], dispatches := [] }

/-- `generate_response` (lines 245-269): delegates with `max_rounds = 2`. -/
def generate_response (o : Oracle) (query : String)
    (conversation_history : Option String) (tools : Option (List String))
    (tool_manager : Bool) : RunResult :=
  generate_response_with_rounds o query conversation_history tools tool_manager 2

/-- The tool dispatches a list of content blocks gives rise to, in order, one
per tool-use block. -/
def dispatchesOf : List ContentBlock → List Dispatch
  | [] => []
  | .text _ :: rest => dispatchesOf rest
  | .tool_use _ name input :: rest => { name := name, input := input } :: dispatchesOf rest

/-- The ids of the tool-use blocks of a content list, in order. -/
def toolUseIds : List ContentBlock → List String
  | [] => []
  | .text _ :: rest => toolUseIds rest
  | .tool_use id _ _ :: rest => id :: toolUseIds rest

/-! ## Lemmas about the tool-dispatch loop -/

/-- The dispatch loop touches neither the request trace nor any state field
other than `messages`. -/
theorem executeToolsLoop_state (o : Oracle) :
    ∀ (blocks : List ContentBlock) (res0 : List ToolResultBlock)
      (st : ConversationState) (tr : Trace) (b : Bool) st2 tr2 res2,
    executeToolsLoop o blocks res0 st tr = (b, st2, tr2, res2) →
    tr2.requests = tr.requests ∧ st2.system_prompt = st.system_prompt ∧
    st2.round_count = st.round_count ∧ st2.max_rounds = st.max_rounds ∧
    st2.tools = st.tools ∧ st2.hasToolManager = st.hasToolManager := by
  intro blocks
  induction blocks with
  | nil =>
    intro res0 st tr b st2 tr2 res2 h
    simp only [executeToolsLoop] at h
    split at h <;> (cases h; simp)
  | cons blk rest ih =>
    intro res0 st tr b st2 tr2 res2 h
    cases blk with
    | text v =>
      simp only [executeToolsLoop] at h
      exact ih _ _ _ _ _ _ _ h
    | tool_use id name input =>
      simp only [executeToolsLoop] at h
      split at h
      · have := ih _ _ _ _ _ _ _ h
        simpa using this
      · cases h; simp

/-- Success case of the dispatch loop: one dispatch per tool-use block in
order, the accumulated results extended by one success block per tool-use
block in order, and the combined user message appended iff the final result
list is non-empty. -/
theorem executeToolsLoop_ok (o : Oracle) :
    ∀ (blocks : List ContentBlock) (res0 : List ToolResultBlock)
      (st : ConversationState) (tr : Trace) st2 tr2 res2,
    executeToolsLoop o blocks res0 st tr = (true, st2, tr2, res2) →
    tr2.dispatches = tr.dispatches ++ dispatchesOf blocks ∧
    (∃ nw, res2 = res0 ++ nw ∧ nw.map ToolResultBlock.tool_use_id = toolUseIds blocks ∧
      ∀ b ∈ nw, b.is_error = false) ∧
    st2.messages = st.messages ++
      (if res2.isEmpty then []
       else [{ role := "user", content := MessageContent.toolResults res2 }]) := by
  intro blocks
  induction blocks with
  | nil =>
    intro res0 st tr st2 tr2 res2 h
    simp only [executeToolsLoop] at h
    split at h <;> cases h
    · next hres =>
      refine ⟨by simp [dispatchesOf], ⟨[], by simp [toolUseIds]⟩, ?_⟩
      simp [hres]
    · next hres =>
      refine ⟨by simp [dispatchesOf], ⟨[], by simp [toolUseIds]⟩, ?_⟩
      simp [hres]
  | cons blk rest ih =>
    intro res0 st tr st2 tr2 res2 h
    cases blk with
    | text v =>
      simp only [executeToolsLoop] at h
      have := ih _ _ _ _ _ _ h
      simpa [dispatchesOf, toolUseIds] using this
    | tool_use id name input =>
      simp only [executeToolsLoop] at h
      split at h
      · next r hr =>
        obtain ⟨hd, ⟨nw, hnw, hids, herr⟩, hm⟩ := ih _ _ _ _ _ _ h
        refine ⟨?_, ⟨({ tool_use_id := id, content := r, is_error := false } : ToolResultBlock) :: nw, ?_, ?_, ?_⟩, hm⟩
        · simp [hd, dispatchesOf]
        · simp [hnw]
        · simp [hids, toolUseIds]
        · intro b hb
          rcases List.mem_cons.mp hb with hb | hb
          · simp [hb]
          · exact herr b hb
      · cases h

/-- Failure case of the dispatch loop: there is a decomposition of the blocks
at the first failing tool-use block; every dispatch up to and including it is
recorded and nothing after it; the error block is appended to the local result
list; the state (in particular the message log) is unchanged. -/
theorem executeToolsLoop_error (o : Oracle) :
    ∀ (blocks : List ContentBlock) (res0 : List ToolResultBlock)
      (st : ConversationState) (tr : Trace) st2 tr2 res2,
    executeToolsLoop o blocks res0 st tr = (false, st2, tr2, res2) →
    st2 = st ∧ tr2.requests = tr.requests ∧
    ∃ pre id name inp post e okRes,
      blocks = pre ++ ContentBlock.tool_use id name inp :: post ∧
      o.tool (tr.dispatches.length + (dispatchesOf pre).length) = .error e ∧
      tr2.dispatches = tr.dispatches ++ dispatchesOf pre ++ [{ name := name, input := inp }] ∧
      res2 = res0 ++ okRes ++
        [{ tool_use_id := id, content := "Tool execution failed: " ++ e, is_error := true }] := by
  intro blocks
  induction blocks with
  | nil =>
    intro res0 st tr st2 tr2 res2 h
    simp only [executeToolsLoop] at h
    split at h <;> cases h
  | cons blk rest ih =>
    intro res0 st tr st2 tr2 res2 h
    cases blk with
    | text v =>
      simp only [executeToolsLoop] at h
      obtain ⟨hst, hreq, pre, id, name, inp, post, e, okRes, hblocks, htool, hd, hres⟩ :=
        ih _ _ _ _ _ _ h
      exact ⟨hst, hreq, ContentBlock.text v :: pre, id, name, inp, post, e, okRes,
        by simp [hblocks], by simpa [dispatchesOf] using htool,
        by simpa [dispatchesOf] using hd, hres⟩
    | tool_use id name input =>
      simp only [executeToolsLoop] at h
      split at h
      · next r hr =>
        obtain ⟨hst, hreq, pre, id2, name2, inp2, post, e, okRes, hblocks, htool, hd, hres⟩ :=
          ih _ _ _ _ _ _ h
        refine ⟨hst, hreq, ContentBlock.tool_use id name input :: pre,
          id2, name2, inp2, post, e,
          ({ tool_use_id := id, content := r, is_error := false } : ToolResultBlock) :: okRes,
          by simp [hblocks], ?_, ?_, by simp [hres]⟩
        · have : tr.dispatches.length + (dispatchesOf (ContentBlock.tool_use id name input :: pre)).length
              = tr.dispatches.length + 1 + (dispatchesOf pre).length := by
            simp [dispatchesOf]; omega
          rw [this]
          simpa [dispatchesOf] using htool
        · simpa [dispatchesOf] using hd
      · next e he =>
        cases h
        refine ⟨rfl, rfl, [], id, name, input, rest, e, [], by simp, ?_, by simp [dispatchesOf], by simp⟩
        simpa [dispatchesOf] using he

/-! ## Lemmas about a single round -/

theorem roundRequest_system (st : ConversationState) :
    (roundRequest st).system = st.system_prompt := by
  unfold roundRequest; split <;> rfl

theorem should_continue_rounds_true (st : ConversationState) (r : Option String)
    (h : should_continue_rounds st = (true, r)) :
    st.round_count < st.max_rounds - 1 := by
  unfold should_continue_rounds at h
  split at h
  · cases h
  · split at h
    · cases h
    · next h1 _ => omega

/-- A single round preserves every state field other than `messages`; it
issues one LLM request, plus a second (final, no-tools) one when the round
terminates the query after successful tool use; every request it issues
carries the state's system prompt; and when it asks to continue, the round
issued exactly one request, returned the empty placeholder answer, and the
round counter is strictly below `max_rounds - 1`. -/
theorem execute_single_round_spec (o : Oracle) (st : ConversationState) (tr : Trace)
    (res : Except PyError String) (cont : Bool) (rsn : Option String)
    (st2 : ConversationState) (tr2 : Trace)
    (h : execute_single_round o st tr = (res, cont, rsn, st2, tr2)) :
    (st2.system_prompt = st.system_prompt ∧ st2.round_count = st.round_count ∧
     st2.max_rounds = st.max_rounds ∧ st2.tools = st.tools ∧
     st2.hasToolManager = st.hasToolManager) ∧
    (∃ new, tr2.requests = tr.requests ++ new ∧ 1 ≤ new.length ∧ new.length ≤ 2 ∧
      (cont = true → new.length = 1) ∧ ∀ req ∈ new, req.system = st.system_prompt) ∧
    (cont = true → st.round_count < st.max_rounds - 1 ∧ res = .ok "") := by
  simp only [execute_single_round] at h
  rcases hllm : o.llm tr.requests.length with e | resp
  all_goals rw [hllm] at h
  · cases h
    exact ⟨by simp, ⟨[roundRequest st], by simp [roundRequest_system]⟩, by simp⟩
  dsimp only at h
  by_cases hcond : (resp.stop_reason == "tool_use" && st.hasToolManager) = true
  · rw [if_pos hcond] at h
    rcases htools : execute_tools_and_update_state o resp st
        { tr with requests := tr.requests ++ [roundRequest st] } with ⟨b, st3, tr3, res3⟩
    rw [htools] at h
    obtain ⟨hreq, hsp, hrc, hmr, htl, hm⟩ :=
      executeToolsLoop_state o resp.content [] _ _ _ _ _ _ htools
    simp only [Trace.requests] at hreq
    simp only [ConversationState.system_prompt, ConversationState.round_count,
      ConversationState.max_rounds, ConversationState.tools,
      ConversationState.hasToolManager] at hsp hrc hmr htl hm
    cases b
    · dsimp only at h
      cases h
      exact ⟨⟨hsp, hrc, hmr, htl, hm⟩,
        ⟨[roundRequest st], by simp [hreq, roundRequest_system]⟩, by simp⟩
    · dsimp only at h
      rcases hsc : should_continue_rounds st3 with ⟨c, rsn2⟩
      rw [hsc] at h
      cases c
      · dsimp only at h
        rcases hfin : o.llm tr3.requests.length with e2 | fresp
        all_goals rw [hfin] at h
        all_goals cases h
        all_goals refine ⟨⟨hsp, hrc, hmr, htl, hm⟩,
          ⟨[roundRequest st, finalRequest st2], by simp [hreq], by simp, by simp, by simp, ?_⟩,
          by simp⟩
        all_goals intro req hreq2
        all_goals rcases List.mem_cons.mp hreq2 with h1 | h1
        · simp [h1, roundRequest_system]
        · simp only [List.mem_singleton] at h1
          simp [h1, finalRequest, hsp]
        · simp [h1, roundRequest_system]
        · simp only [List.mem_singleton] at h1
          simp [h1, finalRequest, hsp]
      · dsimp only at h
        cases h
        refine ⟨⟨hsp, hrc, hmr, htl, hm⟩,
          ⟨[roundRequest st], by simp [hreq, roundRequest_system]⟩, ?_⟩
        intro _
        have := should_continue_rounds_true _ _ hsc
        refine ⟨?_, rfl⟩
        rwa [hrc, hmr] at this
  · rw [if_neg hcond] at h
    cases h
    exact ⟨by simp, ⟨[roundRequest st], by simp [roundRequest_system]⟩, by simp⟩

/-! ## Lemmas about the round loop -/

theorem postLoopFinal_spec (o : Oracle) (st : ConversationState) (tr : Trace) :
    (postLoopFinal o st tr).requests = tr.requests ++ [finalRequest st] ∧
    (postLoopFinal o st tr).usedFallback = true ∧
    (postLoopFinal o st tr).dispatches = tr.dispatches ∧
    (postLoopFinal o st tr).messages = st.messages := by
  unfold postLoopFinal
  rcases h : o.llm tr.requests.length with e | fresp <;> simp

/-- The loop with `fuel` remaining iterations issues at most `fuel + 1`
further LLM requests. -/
theorem roundLoop_requests_le (o : Oracle) :
    ∀ (fuel : Nat) (st : ConversationState) (tr : Trace),
    (roundLoop o fuel st tr).requests.length ≤ tr.requests.length + fuel + 1 := by
  intro fuel
  induction fuel with
  | zero =>
    intro st tr
    obtain ⟨hr, _, _, _⟩ := postLoopFinal_spec o st tr
    simp only [roundLoop, hr]
    simp
  | succ f ih =>
    intro st tr
    simp only [roundLoop]
    split
    · rcases hr : execute_single_round o st tr with ⟨res, cont, rsn, st2, tr2⟩
      obtain ⟨_, ⟨new, hnew, _, hle2, hcont1, _⟩, _⟩ :=
        execute_single_round_spec o st tr _ _ _ _ _ hr
      cases cont
      · dsimp only
        rw [hnew]
        simp only [List.length_append]
        omega
      · dsimp only
        have := ih { st2 with round_count := st2.round_count + 1 } tr2
        have hlen : tr2.requests.length = tr.requests.length + 1 := by
          rw [hnew]
          simp [hcont1 rfl]
        omega
    · obtain ⟨hr, _, _, _⟩ := postLoopFinal_spec o st tr
      rw [hr]
      simp only [List.length_append, List.length_singleton]
      omega

/-- With at least one unit of fuel and the invariant
`round_count + fuel = max_rounds`, the loop never reaches the post-loop
fallback call: `_should_continue_rounds` refuses to continue once
`round_count = max_rounds - 1`. -/
theorem roundLoop_no_fallback (o : Oracle) :
    ∀ (fuel : Nat) (st : ConversationState) (tr : Trace),
    st.round_count + fuel = st.max_rounds → 1 ≤ fuel →
    (roundLoop o fuel st tr).usedFallback = false := by
  intro fuel
  induction fuel with
  | zero => intro st tr _ h2; omega
  | succ f ih =>
    intro st tr hinv _
    simp only [roundLoop]
    have hguard : st.round_count < st.max_rounds := by omega
    rw [if_pos hguard]
    rcases hr : execute_single_round o st tr with ⟨res, cont, rsn, st2, tr2⟩
    obtain ⟨⟨hsp, hrc, hmr, htl, hm⟩, _, hcont⟩ :=
      execute_single_round_spec o st tr _ _ _ _ _ hr
    cases cont
    · simp
    · dsimp only
      obtain ⟨hlt, _⟩ := hcont rfl
      apply ih
      · simp only [ConversationState.round_count, ConversationState.max_rounds, hrc, hmr]
        omega
      · omega

/-- Every request the loop issues carries the state's (immutable) system
prompt. -/
theorem roundLoop_system (o : Oracle) :
    ∀ (fuel : Nat) (st : ConversationState) (tr : Trace),
    (∀ req ∈ tr.requests, req.system = st.system_prompt) →
    ∀ req ∈ (roundLoop o fuel st tr).requests, req.system = st.system_prompt := by
  intro fuel
  induction fuel with
  | zero =>
    intro st tr hpre req hreq
    obtain ⟨hr, _, _, _⟩ := postLoopFinal_spec o st tr
    simp only [roundLoop, hr] at hreq
    rcases List.mem_append.mp hreq with h | h
    · exact hpre _ h
    · simp only [List.mem_singleton] at h
      simp [h, finalRequest]
  | succ f ih =>
    intro st tr hpre req hreq
    simp only [roundLoop] at hreq
    by_cases hguard : st.round_count < st.max_rounds
    · rw [if_pos hguard] at hreq
      rcases hr : execute_single_round o st tr with ⟨res, cont, rsn, st2, tr2⟩
      rw [hr] at hreq
      obtain ⟨⟨hsp, _, _, _, _⟩, ⟨new, hnew, _, _, _, hsys⟩, _⟩ :=
        execute_single_round_spec o st tr _ _ _ _ _ hr
      cases cont
      · dsimp only at hreq
        rw [hnew] at hreq
        rcases List.mem_append.mp hreq with h | h
        · exact hpre _ h
        · exact hsys _ h
      · dsimp only at hreq
        have hpre2 : ∀ r ∈ tr2.requests,
            r.system = ({ st2 with round_count := st2.round_count + 1 } :
              ConversationState).system_prompt := by
          intro r hrr
          simp only [ConversationState.system_prompt, hsp]
          rw [hnew] at hrr
          rcases List.mem_append.mp hrr with h | h
          · exact hpre _ h
          · exact hsys _ h
        have := ih _ _ hpre2 req hreq
        simp only [ConversationState.system_prompt, hsp] at this
        exact this
    · rw [if_neg hguard] at hreq
      obtain ⟨hr2, _, _, _⟩ := postLoopFinal_spec o st tr
      rw [hr2] at hreq
      rcases List.mem_append.mp hreq with h | h
      · exact hpre _ h
      · simp only [List.mem_singleton] at h
        simp [h, finalRequest]

/-! ## Claim theorems (first batch) -/

/-- C1: for every `max_rounds ≥ 1` (written `mr + 1`) and every behaviour of
the LLM and the tools, `generate_response_with_rounds` issues at most
`max_rounds + 1` LLM requests before returning. -/
theorem claim_C1_llm_call_bound (o : Oracle) (query : String)
    (hist : Option String) (tools : Option (List String)) (tm : Bool) (mr : Nat) :
    (generate_response_with_rounds o query hist tools tm (mr + 1)).requests.length
      ≤ (mr + 1) + 1 := by
  have := roundLoop_requests_le o (mr + 1)
    (initState query (systemContent hist) tools tm (mr + 1))
    { requests := [], dispatches := [] }
  simpa [generate_response_with_rounds] using this

/-- C10: for every `max_rounds ≥ 1` (written `mr + 1`), the round loop always
returns from inside its body; the post-loop fallback LLM call (lines 121-127)
is never executed, because `_should_continue_rounds` returns `False` whenever
`round_count ≥ max_rounds - 1`. -/
theorem claim_C10_fallback_unreachable (o : Oracle) (query : String)
    (hist : Option String) (tools : Option (List String)) (tm : Bool) (mr : Nat) :
    (generate_response_with_rounds o query hist tools tm (mr + 1)).usedFallback = false := by
  have := roundLoop_no_fallback o (mr + 1)
    (initState query (systemContent hist) tools tm (mr + 1))
    { requests := [], dispatches := [] } (by simp [initState]) (by omega)
  simpa [generate_response_with_rounds] using this

/-- C9: `generate_response` returns the same answer and performs the same
sequence of LLM requests and tool dispatches as
`generate_response_with_rounds` with `max_rounds = 2`. -/
theorem claim_C9_generate_response_delegates (o : Oracle) (query : String)
    (hist : Option String) (tools : Option (List String)) (tm : Bool) :
    (generate_response o query hist tools tm).result =
      (generate_response_with_rounds o query hist tools tm 2).result ∧
    (generate_response o query hist tools tm).requests =
      (generate_response_with_rounds o query hist tools tm 2).requests ∧
    (generate_response o query hist tools tm).dispatches =
      (generate_response_with_rounds o query hist tools tm 2).dispatches :=
  ⟨rfl, rfl, rfl⟩

/-- C8: every LLM request of a query carries the same system prompt: the
fixed instruction block when no (non-empty) history text is supplied, and the
fixed block with the history appended under the delimited previous
conversation section otherwise; it never changes between rounds. -/
theorem claim_C8_system_prompt (o : Oracle) (query : String)
    (tools : Option (List String)) (tm : Bool) (mr : Nat) (hist : Option String) :
    ((generate_response_with_rounds o query hist tools tm mr).requests.all
      (fun req => req.system == systemContent hist)) = true ∧
    systemContent none = SYSTEM_PROMPT ∧
    ∀ s, systemContent (some s) =
      (if s == "" then SYSTEM_PROMPT
       else SYSTEM_PROMPT ++ "\n\nPrevious conversation:\n" ++ s) := by
  refine ⟨?_, rfl, fun s => rfl⟩
  rw [List.all_eq_true]
  intro req hreq
  have := roundLoop_system o mr
    (initState query (systemContent hist) tools tm mr)
    { requests := [], dispatches := [] } (by simp) req
    (by simpa [generate_response_with_rounds] using hreq)
  simp only [initState] at this
  exact beq_iff_eq.mpr this

/-! ## Reachability of a round -/

/-- `EngineReaches o st0 i st tr` says the loop, started at `st0` with an
empty trace, has completed `i` continuing rounds and stands before the next
loop-guard check with state `st` and trace `tr`. -/
inductive EngineReaches (o : Oracle) (st0 : ConversationState) :
    Nat → ConversationState → Trace → Prop where
  | zero : EngineReaches o st0 0 st0 { requests := [], dispatches := [] }
  | succ {i : Nat} {st : ConversationState} {tr : Trace}
      {res : Except PyError String} {rsn : Option String}
      {st2 : ConversationState} {tr2 : Trace} :
      EngineReaches o st0 i st tr →
      st.round_count < st.max_rounds →
      execute_single_round o st tr = (res, true, rsn, st2, tr2) →
      EngineReaches o st0 (i + 1) { st2 with round_count := st2.round_count + 1 } tr2

theorem engineReaches_invariant (o : Oracle) (st0 : ConversationState)
    {i : Nat} {st : ConversationState} {tr : Trace}
    (h : EngineReaches o st0 i st tr) :
    st.round_count = st0.round_count + i ∧ st.max_rounds = st0.max_rounds ∧
    st.system_prompt = st0.system_prompt ∧ st.tools = st0.tools ∧
    st.hasToolManager = st0.hasToolManager ∧ tr.requests.length = i := by
  induction h with
  | zero => simp
  | @succ i st tr res rsn st2 tr2 hreach hguard hr ih =>
    obtain ⟨⟨hsp, hrc, hmr, htl, hm⟩, ⟨new, hnew, _, _, hcont1, _⟩, _⟩ :=
      execute_single_round_spec _ _ _ _ _ _ _ _ hr
    obtain ⟨irc, imr, isp, itl, im, ilen⟩ := ih
    refine ⟨?_, ?_, ?_, ?_, ?_, ?_⟩
    · show st2.round_count + 1 = st0.round_count + (i + 1)
      rw [hrc, irc]
      omega
    · show st2.max_rounds = st0.max_rounds
      rw [hmr, imr]
    · show st2.system_prompt = st0.system_prompt
      rw [hsp, isp]
    · show st2.tools = st0.tools
      rw [htl, itl]
    · show st2.hasToolManager = st0.hasToolManager
      rw [hm, im]
    · show tr2.requests.length = i + 1
      rw [hnew]
      simp [hcont1 rfl, ilen]

theorem engineReaches_unwind (o : Oracle) (st0 : ConversationState)
    {i : Nat} {st : ConversationState} {tr : Trace}
    (h : EngineReaches o st0 i st tr) :
    ∀ fuel, roundLoop o (i + fuel) st0 { requests := [], dispatches := [] } =
      roundLoop o fuel st tr := by
  induction h with
  | zero => intro fuel; rw [Nat.zero_add]
  | @succ i st tr res rsn st2 tr2 hreach hguard hr ih =>
    intro fuel
    have harith : i + 1 + fuel = i + (fuel + 1) := by omega
    rw [harith, ih (fuel + 1)]
    simp only [roundLoop]
    rw [if_pos hguard, hr]

/-! ## Claim theorems (second batch) -/

/-- C5: if the first LLM response requests no tool use (its stop reason is
not tool_use), the engine makes exactly one LLM call, never invokes
the tool dispatcher, and returns that response's text directly. -/
theorem claim_C5_no_tool_use_single_call (o : Oracle) (query : String)
    (hist : Option String) (tools : Option (List String)) (tm : Bool) (mr : Nat)
    (r : LLMResponse) (v : String) (rest : List ContentBlock)
    (hllm : o.llm 0 = .ok r)
    (hsr : r.stop_reason ≠ "tool_use")
    (htext : r.content = ContentBlock.text v :: rest) :
    (generate_response_with_rounds o query hist tools tm (mr + 1)).result = .ok v ∧
    (generate_response_with_rounds o query hist tools tm (mr + 1)).requests.length = 1 ∧
    (generate_response_with_rounds o query hist tools tm (mr + 1)).dispatches = [] := by
  have hbeq : (r.stop_reason == "tool_use") = false := beq_eq_false_iff_ne.mpr hsr
  have hesr : ∀ st : ConversationState, st.hasToolManager = tm →
      execute_single_round o st { requests := [], dispatches := [] } =
      (.ok v, false, some "no_tool_use", st,
        { requests := [roundRequest st], dispatches := [] }) := by
    intro st _
    simp only [execute_single_round, List.length_nil, hllm]
    rw [hbeq]
    simp [contentText, htext]
  have hrun : generate_response_with_rounds o query hist tools tm (mr + 1) =
      { result := .ok v,
        requests := [roundRequest (initState query (systemContent hist) tools tm (mr + 1))],
        dispatches := [],
        messages := (initState query (systemContent hist) tools tm (mr + 1)).messages,
        usedFallback := false } := by
    rw [generate_response_with_rounds]
    simp only [roundLoop]
    rw [if_pos (by simp [initState] : (initState query (systemContent hist) tools tm (mr + 1)).round_count < (initState query (systemContent hist) tools tm (mr + 1)).max_rounds)]
    rw [hesr _ rfl]
  rw [hrun]
  exact ⟨rfl, rfl, rfl⟩

/-- Under a well-behaved LLM oracle (every call succeeds and every response
leads with a text block), a single round never produces an uncaught
exception: any terminating outcome is a string answer. -/
theorem execute_single_round_ok (o : Oracle) (st : ConversationState) (tr : Trace)
    (res : Except PyError String) (cont : Bool) (rsn : Option String)
    (st2 : ConversationState) (tr2 : Trace)
    (H : ∀ j, ∃ resp, o.llm j = .ok resp ∧
      ∃ v rest, resp.content = ContentBlock.text v :: rest)
    (h : execute_single_round o st tr = (res, cont, rsn, st2, tr2)) :
    ∃ s, res = .ok s := by
  simp only [execute_single_round] at h
  obtain ⟨resp, hllm, v, rest, htext⟩ := H tr.requests.length
  rw [hllm] at h
  dsimp only at h
  by_cases hcond : (resp.stop_reason == "tool_use" && st.hasToolManager) = true
  · rw [if_pos hcond] at h
    rcases htools : execute_tools_and_update_state o resp st
        { tr with requests := tr.requests ++ [roundRequest st] } with ⟨b, st3, tr3, res3⟩
    rw [htools] at h
    cases b
    · dsimp only at h
      cases h
      exact ⟨_, rfl⟩
    · dsimp only at h
      rcases hsc : should_continue_rounds st3 with ⟨c, rsn2⟩
      rw [hsc] at h
      cases c
      · dsimp only at h
        obtain ⟨fresp, hfin, v2, rest2, htext2⟩ := H tr3.requests.length
        rw [hfin] at h
        cases h
        exact ⟨v2, by rw [htext2]; rfl⟩
      · dsimp only at h
        cases h
        exact ⟨"", rfl⟩
  · rw [if_neg hcond] at h
    cases h
    exact ⟨v, by rw [htext]; rfl⟩

/-- Under a well-behaved LLM oracle the loop always returns a string
answer, whatever the tools do. -/
theorem roundLoop_returns_string (o : Oracle)
    (H : ∀ j, ∃ resp, o.llm j = .ok resp ∧
      ∃ v rest, resp.content = ContentBlock.text v :: rest) :
    ∀ (fuel : Nat) (st : ConversationState) (tr : Trace),
    ∃ s, (roundLoop o fuel st tr).result = .ok s := by
  intro fuel
  induction fuel with
  | zero =>
    intro st tr
    simp only [roundLoop, postLoopFinal]
    obtain ⟨resp, hllm, v, rest, htext⟩ := H tr.requests.length
    rw [hllm]
    exact ⟨v, by dsimp only; rw [htext]; rfl⟩
  | succ f ih =>
    intro st tr
    simp only [roundLoop]
    by_cases hguard : st.round_count < st.max_rounds
    · rw [if_pos hguard]
      rcases hr : execute_single_round o st tr with ⟨res, cont, rsn, st2, tr2⟩
      cases cont
      · dsimp only
        exact execute_single_round_ok o st tr _ _ _ _ _ H hr
      · dsimp only
        exact ih _ _
    · rw [if_neg hguard]
      simp only [postLoopFinal]
      obtain ⟨resp, hllm, v, rest, htext⟩ := H tr.requests.length
      rw [hllm]
      exact ⟨v, by dsimp only; rw [htext]; rfl⟩

/-- C3 (amended): an exception raised by a tool dispatch never propagates
(arbitrary tool behaviour is allowed), and an exception raised by the
within-round LLM call is caught and converted into an error-string answer;
whenever every LLM call succeeds with a response whose first content block is
text, the entry point returns a string answer.  The original claim is false:
an exception raised by the final no-tools LLM call (which the code does not
guard) propagates out of the public entry point. -/
theorem claim_C3_amended_no_raise (o : Oracle) (query : String)
    (hist : Option String) (tools : Option (List String)) (tm : Bool) (mr : Nat) :
    ((∀ j, ∃ resp, o.llm j = .ok resp ∧
        ∃ v rest, resp.content = ContentBlock.text v :: rest) →
      ∃ s, (generate_response_with_rounds o query hist tools tm (mr + 1)).result = .ok s) ∧
    (∀ e, o.llm 0 = .error e →
      (generate_response_with_rounds o query hist tools tm (mr + 1)).result =
        .ok ("Error generating response: " ++ e)) := by
  constructor
  · intro H
    exact roundLoop_returns_string o H (mr + 1) _ _
  · intro e he
    rw [generate_response_with_rounds]
    simp only [roundLoop]
    rw [if_pos (by simp [initState] :
      (initState query (systemContent hist) tools tm (mr + 1)).round_count <
        (initState query (systemContent hist) tools tm (mr + 1)).max_rounds)]
    simp only [execute_single_round, List.length_nil, he]

/-- C7 (amended): on a tool-execution failure an error result block is
constructed (marked `is_error`, carrying the failure's description as content,
tied to the originating tool-use id) and appended to the local result list,
but the early `return False` skips the flush of that list, so the round's
message log receives only the assistant tool-use message and no tool-result
block at all. -/
theorem claim_C7_amended_error_block_not_logged (o : Oracle) (resp : LLMResponse)
    (st : ConversationState) (tr : Trace)
    (st2 : ConversationState) (tr2 : Trace) (res2 : List ToolResultBlock)
    (hfail : execute_tools_and_update_state o resp st tr = (false, st2, tr2, res2)) :
    st2.messages = st.messages ++
      [{ role := "assistant", content := MessageContent.blocks resp.content }] ∧
    ∃ pre id name inp post e okRes,
      resp.content = pre ++ ContentBlock.tool_use id name inp :: post ∧
      o.tool (tr.dispatches.length + (dispatchesOf pre).length) = .error e ∧
      res2 = okRes ++
        [{ tool_use_id := id, content := "Tool execution failed: " ++ e,
           is_error := true }] := by
  simp only [execute_tools_and_update_state] at hfail
  obtain ⟨hst, hreq, pre, id, name, inp, post, e, okRes, hblocks, htool, hd, hres⟩ :=
    executeToolsLoop_error o resp.content [] _ _ _ _ _ hfail
  refine ⟨?_, pre, id, name, inp, post, e, okRes, hblocks, htool, ?_⟩
  · rw [hst]
  · simpa using hres

/-- C6: within a round whose tool calls all succeed (and which requests at
least one tool call), the dispatcher is invoked once per tool-use block,
sequentially, in the order the blocks appear; exactly two messages are
appended to the log: the assistant tool-use message, then one combined user
message with one tool-result block per tool call, in the same order, each
carrying the originating tool-use id. -/
theorem claim_C6_ordered_dispatch (o : Oracle) (resp : LLMResponse)
    (st : ConversationState) (tr : Trace)
    (st2 : ConversationState) (tr2 : Trace) (res2 : List ToolResultBlock)
    (hok : execute_tools_and_update_state o resp st tr = (true, st2, tr2, res2))
    (hne : toolUseIds resp.content ≠ []) :
    tr2.dispatches = tr.dispatches ++ dispatchesOf resp.content ∧
    res2.map ToolResultBlock.tool_use_id = toolUseIds resp.content ∧
    (∀ b ∈ res2, b.is_error = false) ∧
    st2.messages = st.messages ++
      [{ role := "assistant", content := MessageContent.blocks resp.content },
       { role := "user", content := MessageContent.toolResults res2 }] := by
  simp only [execute_tools_and_update_state] at hok
  obtain ⟨hd, ⟨nw, hnw, hids, herr⟩, hm⟩ :=
    executeToolsLoop_ok o resp.content [] _ _ _ _ _ hok
  have hres2 : res2 = nw := by simpa using hnw
  have hmap : res2.map ToolResultBlock.tool_use_id = toolUseIds resp.content := by
    rw [hres2]; exact hids
  have hempty : res2.isEmpty = false := by
    cases hzero : res2 with
    | nil =>
      exfalso
      apply hne
      rw [← hmap, hzero]
      rfl
    | cons a l => rfl
  rw [hempty] at hm
  refine ⟨hd, hmap, ?_, ?_⟩
  · intro b hb
    exact herr b (by rwa [← hres2])
  · simpa using hm

/-- C2: if, on round `i + 1` (after `i` completed rounds, with
`max_rounds = i + f + 1 > i`), dispatching a requested tool call raises, the
engine terminates immediately: exactly `i + 1` LLM calls in total, no further
tool dispatches (the remaining tool-use blocks of the same round included), no
final no-tools LLM call, and the answer is the string
"Tool execution failed". -/
theorem claim_C2_tool_failure_fatal (o : Oracle) (query : String)
    (hist : Option String) (tools : Option (List String)) (i f : Nat)
    (st : ConversationState) (tr : Trace) (r : LLMResponse)
    (st2 : ConversationState) (tr2 : Trace) (res2 : List ToolResultBlock)
    (hreach : EngineReaches o
      (initState query (systemContent hist) tools true (i + f + 1)) i st tr)
    (hllm : o.llm tr.requests.length = .ok r)
    (hsr : r.stop_reason = "tool_use")
    (hfail : execute_tools_and_update_state o r st
      { tr with requests := tr.requests ++ [roundRequest st] } = (false, st2, tr2, res2)) :
    generate_response_with_rounds o query hist tools true (i + f + 1) =
      { result := .ok "Tool execution failed", requests := tr2.requests,
        dispatches := tr2.dispatches, messages := st2.messages, usedFallback := false } ∧
    tr2.requests.length = i + 1 ∧
    ∃ pre id name inp post e,
      r.content = pre ++ ContentBlock.tool_use id name inp :: post ∧
      o.tool (tr.dispatches.length + (dispatchesOf pre).length) = .error e ∧
      tr2.dispatches = tr.dispatches ++ dispatchesOf pre ++
        [{ name := name, input := inp }] := by
  obtain ⟨irc, imr, isp, itl, im, ilen⟩ := engineReaches_invariant o _ hreach
  have hrc : st.round_count = i := by simpa [initState] using irc
  have hmr : st.max_rounds = i + f + 1 := by simpa [initState] using imr
  have him : st.hasToolManager = true := by simpa [initState] using im
  have hguard : st.round_count < st.max_rounds := by omega
  have hcond : (r.stop_reason == "tool_use" && st.hasToolManager) = true := by
    simp [hsr, him]
  have hesr : execute_single_round o st tr =
      (.ok "Tool execution failed", false, some "tool_error", st2, tr2) := by
    simp only [execute_single_round, hllm]
    rw [if_pos hcond, hfail]
  have hrun : generate_response_with_rounds o query hist tools true (i + f + 1) =
      roundLoop o (f + 1) st tr := by
    have hu := engineReaches_unwind o _ hreach (f + 1)
    rw [show i + (f + 1) = i + f + 1 from by omega] at hu
    rw [generate_response_with_rounds]
    exact hu
  obtain ⟨hst2, hreq2, pre, id, name, inp, post, e, okRes, hblocks, htool, hd, hres⟩ :=
    executeToolsLoop_error o r.content [] _ _ _ _ _
      (by simpa [execute_tools_and_update_state] using hfail)
  refine ⟨?_, ?_, pre, id, name, inp, post, e, hblocks, ?_, ?_⟩
  · rw [hrun]
    simp only [roundLoop]
    rw [if_pos hguard, hesr]
  · rw [hreq2]
    simp [ilen]
  · simpa using htool
  · simpa using hd

/-- C4: when the response of the last allowed round (`i` completed rounds,
`max_rounds = i + 1`, so `round_count = max_rounds - 1`) requests tool use and
all its tool calls succeed, the engine makes exactly one further LLM call,
whose request carries the accumulated message log and omits both the tool
definitions and the tool-choice hint, and the text of that response is
returned as the final answer. -/
theorem claim_C4_final_call_without_tools (o : Oracle) (query : String)
    (hist : Option String) (tools : Option (List String)) (i : Nat)
    (st : ConversationState) (tr : Trace) (r : LLMResponse)
    (st2 : ConversationState) (tr2 : Trace) (res2 : List ToolResultBlock)
    (fresp : LLMResponse) (v : String) (rest : List ContentBlock)
    (hreach : EngineReaches o
      (initState query (systemContent hist) tools true (i + 1)) i st tr)
    (hllm : o.llm tr.requests.length = .ok r)
    (hsr : r.stop_reason = "tool_use")
    (hok : execute_tools_and_update_state o r st
      { tr with requests := tr.requests ++ [roundRequest st] } = (true, st2, tr2, res2))
    (hfin : o.llm tr2.requests.length = .ok fresp)
    (htext : fresp.content = ContentBlock.text v :: rest) :
    generate_response_with_rounds o query hist tools true (i + 1) =
      { result := .ok v, requests := tr2.requests ++ [finalRequest st2],
        dispatches := tr2.dispatches, messages := st2.messages, usedFallback := false } ∧
    finalRequest st2 = { system := st2.system_prompt, messages := st2.messages,
                         tools := none, tool_choice := none } ∧
    tr2.requests.length = i + 1 := by
  obtain ⟨irc, imr, isp, itl, im, ilen⟩ := engineReaches_invariant o _ hreach
  have hrc : st.round_count = i := by simpa [initState] using irc
  have hmr : st.max_rounds = i + 1 := by simpa [initState] using imr
  have him : st.hasToolManager = true := by simpa [initState] using im
  have hguard : st.round_count < st.max_rounds := by omega
  have hcond : (r.stop_reason == "tool_use" && st.hasToolManager) = true := by
    simp [hsr, him]
  obtain ⟨hreq2, hsp2, hrc2, hmr2, _, _⟩ :=
    executeToolsLoop_state o r.content [] _ _ _ _ _ _
      (by simpa [execute_tools_and_update_state] using hok)
  have hsc : should_continue_rounds st2 = (false, some "max_rounds_reached") := by
    unfold should_continue_rounds
    rw [if_pos ?hle]
    case hle =>
      have h1 : st2.round_count = st.round_count := by simpa using hrc2
      have h2 : st2.max_rounds = st.max_rounds := by simpa using hmr2
      omega
  have hesr : execute_single_round o st tr =
      (.ok v, false, some "max_rounds_reached", st2,
        { tr2 with requests := tr2.requests ++ [finalRequest st2] }) := by
    simp only [execute_single_round, hllm]
    rw [if_pos hcond, hok]
    dsimp only
    rw [hsc]
    dsimp only
    rw [hfin]
    dsimp only
    rw [htext]
    rfl
  have hrun : generate_response_with_rounds o query hist tools true (i + 1) =
      roundLoop o 1 st tr := by
    have hu := engineReaches_unwind o _ hreach 1
    rw [generate_response_with_rounds, hu]
  refine ⟨?_, rfl, ?_⟩
  · rw [hrun]
    simp only [roundLoop]
    rw [if_pos hguard, hesr]
  · rw [hreq2]
    simp [ilen]

/-! ## Concrete scenarios -/

/-- An LLM response carrying a plain text answer. -/
def textResponse (s : String) : LLMResponse :=
  { stop_reason := "end_turn", content := [.text s] }

/-- An LLM response requesting a single search tool call. -/
def oneToolResponse : LLMResponse :=
  { stop_reason := "tool_use",
    content := [.tool_use "id1" "search_course_content" [("query", "MCP")]] }

/-- An LLM response requesting two tool calls. -/
def twoToolResponse : LLMResponse :=
  { stop_reason := "tool_use",
    content := [.tool_use "id1" "search_course_content" [("query", "MCP")],
                .tool_use "id2" "get_course_outline" [("course_name", "MCP")]] }

/-- Scenario: the LLM always answers in plain text, tools always succeed. -/
def exOracle : Oracle :=
  { llm := fun _ => .ok (textResponse "hello"), tool := fun _ => .ok "result" }

/-- Scenario: every LLM call raises. -/
def errOracle : Oracle :=
  { llm := fun _ => .error "boom", tool := fun _ => .ok "result" }

/-- Scenario: the first two LLM calls request a tool, the third raises;
tools always succeed.  Exercises the unguarded final no-tools call. -/
def finalFailOracle : Oracle :=
  { llm := fun i => if i ≤ 1 then .ok oneToolResponse else .error "boom",
    tool := fun _ => .ok "result" }

/-- Scenario: the LLM requests a tool and the tool raises. -/
def toolFailOracle : Oracle :=
  { llm := fun _ => .ok oneToolResponse, tool := fun _ => .error "Search failed" }

/-- Scenario: the LLM requests two tool calls; the first dispatch succeeds
and the second raises. -/
def secondToolFailOracle : Oracle :=
  { llm := fun _ => .ok twoToolResponse,
    tool := fun d => if d = 0 then .ok "result" else .error "boom" }

/-- Scenario: round 1 requests a tool (which succeeds), the next LLM call
answers in text. -/
def toolThenTextOracle : Oracle :=
  { llm := fun i => if i = 0 then .ok oneToolResponse else .ok (textResponse "final"),
    tool := fun _ => .ok "search results" }

/-! ## Counterexamples and witnesses -/

/-- C3 counterexample: with a first (and second) response requesting tool use
and an LLM that raises on the third call, the exception of the final no-tools
call — which the code does not guard with try/except — propagates out of the
public entry point `generate_response` instead of being turned into a string
answer. -/
theorem claim_C3_counterexample :
    (generate_response finalFailOracle "q" none
      (some ["search_course_content"]) true).result = .error (.apiExc "boom") := rfl

/-- C7 counterexample: a query whose tool dispatch raises terminates with the
generic failure answer, and its final message log consists of the user query
and the assistant tool-use message only — no tool-result block (error or
otherwise) was ever appended to the log, contradicting the claim that the
error result block is appended to the round's message log. -/
theorem claim_C7_counterexample :
    (generate_response toolFailOracle "q" none
      (some ["search_course_content"]) true).result = .ok "Tool execution failed" ∧
    (generate_response toolFailOracle "q" none
      (some ["search_course_content"]) true).messages =
      [{ role := "user", content := MessageContent.text "q" },
       { role := "assistant", content := MessageContent.blocks oneToolResponse.content }] :=
  ⟨rfl, rfl⟩

/-- Initial state of the concrete two-tool scenario (`max_rounds = 2`). -/
def c2init : ConversationState :=
  initState "q" (systemContent none) (some ["search_course_content"]) true 2

/-- State after the failing tool round of the two-tool scenario. -/
def c2st2 : ConversationState :=
  { messages := [{ role := "user", content := .text "q" },
                 { role := "assistant", content := .blocks twoToolResponse.content }],
    system_prompt := systemContent none, round_count := 0, max_rounds := 2,
    tools := some ["search_course_content"], hasToolManager := true }

/-- Trace after the failing tool round of the two-tool scenario. -/
def c2tr2 : Trace :=
  { requests := [roundRequest c2init],
    dispatches := [{ name := "search_course_content", input := [("query", "MCP")] },
                   { name := "get_course_outline", input := [("course_name", "MCP")] }] }

/-- Local result list after the failing tool round of the two-tool scenario. -/
def c2res2 : List ToolResultBlock :=
  [{ tool_use_id := "id1", content := "result", is_error := false },
   { tool_use_id := "id2", content := "Tool execution failed: boom", is_error := true }]

/-- Witness for C2: first round, two requested tool calls, the second
dispatch raises; one LLM call total, answer is the generic failure string. -/
theorem claim_C2_witness :
    EngineReaches secondToolFailOracle c2init 0 c2init
      { requests := [], dispatches := [] } ∧
    secondToolFailOracle.llm 0 = .ok twoToolResponse ∧
    twoToolResponse.stop_reason = "tool_use" ∧
    generate_response_with_rounds secondToolFailOracle "q" none
        (some ["search_course_content"]) true 2 =
      { result := .ok "Tool execution failed", requests := c2tr2.requests,
        dispatches := c2tr2.dispatches, messages := c2st2.messages,
        usedFallback := false } ∧
    c2tr2.requests.length = 1 :=
  ⟨EngineReaches.zero, rfl, rfl,
   (claim_C2_tool_failure_fatal secondToolFailOracle "q" none
     (some ["search_course_content"]) 0 1 c2init { requests := [], dispatches := [] }
     twoToolResponse c2st2 c2tr2 c2res2 EngineReaches.zero rfl rfl rfl).1,
   (claim_C2_tool_failure_fatal secondToolFailOracle "q" none
     (some ["search_course_content"]) 0 1 c2init { requests := [], dispatches := [] }
     twoToolResponse c2st2 c2tr2 c2res2 EngineReaches.zero rfl rfl rfl).2.1⟩

/-- Initial state of the concrete single-tool scenario with `max_rounds = 1`. -/
def c4init : ConversationState :=
  initState "q" (systemContent none) (some ["search_course_content"]) true 1

/-- State after the successful tool round of the `max_rounds = 1` scenario. -/
def c4st2 : ConversationState :=
  { messages := [{ role := "user", content := .text "q" },
                 { role := "assistant", content := .blocks oneToolResponse.content },
                 { role := "user", content := .toolResults
                     [{ tool_use_id := "id1", content := "search results",
                        is_error := false }] }],
    system_prompt := systemContent none, round_count := 0, max_rounds := 1,
    tools := some ["search_course_content"], hasToolManager := true }

/-- Trace after the successful tool round of the `max_rounds = 1` scenario. -/
def c4tr2 : Trace :=
  { requests := [roundRequest c4init],
    dispatches := [{ name := "search_course_content", input := [("query", "MCP")] }] }

/-- Result list after the successful tool round of the `max_rounds = 1`
scenario. -/
def c4res2 : List ToolResultBlock :=
  [{ tool_use_id := "id1", content := "search results", is_error := false }]

/-- Witness for C4: last allowed round requests a tool which succeeds; one
further LLM call without tools returns the final answer. -/
theorem claim_C4_witness :
    EngineReaches toolThenTextOracle c4init 0 c4init
      { requests := [], dispatches := [] } ∧
    toolThenTextOracle.llm 0 = .ok oneToolResponse ∧
    oneToolResponse.stop_reason = "tool_use" ∧
    toolThenTextOracle.llm c4tr2.requests.length = .ok (textResponse "final") ∧
    generate_response_with_rounds toolThenTextOracle "q" none
        (some ["search_course_content"]) true 1 =
      { result := .ok "final", requests := c4tr2.requests ++ [finalRequest c4st2],
        dispatches := c4tr2.dispatches, messages := c4st2.messages,
        usedFallback := false } ∧
    finalRequest c4st2 = { system := c4st2.system_prompt, messages := c4st2.messages,
                           tools := none, tool_choice := none } ∧
    c4tr2.requests.length = 1 :=
  ⟨EngineReaches.zero, rfl, rfl, rfl,
   (claim_C4_final_call_without_tools toolThenTextOracle "q" none
     (some ["search_course_content"]) 0 c4init { requests := [], dispatches := [] }
     oneToolResponse c4st2 c4tr2 c4res2 (textResponse "final") "final" []
     EngineReaches.zero rfl rfl rfl rfl rfl).1,
   (claim_C4_final_call_without_tools toolThenTextOracle "q" none
     (some ["search_course_content"]) 0 c4init { requests := [], dispatches := [] }
     oneToolResponse c4st2 c4tr2 c4res2 (textResponse "final") "final" []
     EngineReaches.zero rfl rfl rfl rfl rfl).2.1,
   (claim_C4_final_call_without_tools toolThenTextOracle "q" none
     (some ["search_course_content"]) 0 c4init { requests := [], dispatches := [] }
     oneToolResponse c4st2 c4tr2 c4res2 (textResponse "final") "final" []
     EngineReaches.zero rfl rfl rfl rfl rfl).2.2⟩

/-- Witness for C5: the first response is a plain text answer. -/
theorem claim_C5_witness :
    exOracle.llm 0 = .ok (textResponse "hello") ∧
    (textResponse "hello").stop_reason ≠ "tool_use" ∧
    (generate_response_with_rounds exOracle "q" none none false 2).result = .ok "hello" ∧
    (generate_response_with_rounds exOracle "q" none none false 2).requests.length = 1 ∧
    (generate_response_with_rounds exOracle "q" none none false 2).dispatches = [] :=
  ⟨rfl, by decide,
   (claim_C5_no_tool_use_single_call exOracle "q" none none false 1
     (textResponse "hello") "hello" [] rfl (by decide) rfl).1,
   (claim_C5_no_tool_use_single_call exOracle "q" none none false 1
     (textResponse "hello") "hello" [] rfl (by decide) rfl).2.1,
   (claim_C5_no_tool_use_single_call exOracle "q" none none false 1
     (textResponse "hello") "hello" [] rfl (by decide) rfl).2.2⟩

/-- Witness for C3 (amended): a well-behaved oracle yields a string answer;
an LLM that raises on the first call yields the error-string answer. -/
theorem claim_C3_witness :
    (∃ s, (generate_response_with_rounds exOracle "q" none none false 2).result = .ok s) ∧
    (generate_response_with_rounds errOracle "q" none none false 2).result =
      .ok ("Error generating response: " ++ "boom") :=
  ⟨(claim_C3_amended_no_raise exOracle "q" none none false 1).1
     (fun _ => ⟨textResponse "hello", rfl, "hello", [], rfl⟩),
   (claim_C3_amended_no_raise errOracle "q" none none false 1).2 "boom" rfl⟩

/-- Initial state of the concrete two-tool success scenario. -/
def c6init : ConversationState :=
  initState "q" (systemContent none) (some ["search_course_content"]) true 2

/-- State after the successful two-tool round. -/
def c6st2 : ConversationState :=
  { messages := [{ role := "user", content := .text "q" },
                 { role := "assistant", content := .blocks twoToolResponse.content },
                 { role := "user", content := .toolResults
                     [{ tool_use_id := "id1", content := "result", is_error := false },
                      { tool_use_id := "id2", content := "result", is_error := false }] }],
    system_prompt := systemContent none, round_count := 0, max_rounds := 2,
    tools := some ["search_course_content"], hasToolManager := true }

/-- Trace after the successful two-tool round. -/
def c6tr2 : Trace :=
  { requests := [],
    dispatches := [{ name := "search_course_content", input := [("query", "MCP")] },
                   { name := "get_course_outline", input := [("course_name", "MCP")] }] }

/-- Result list of the successful two-tool round. -/
def c6res2 : List ToolResultBlock :=
  [{ tool_use_id := "id1", content := "result", is_error := false },
   { tool_use_id := "id2", content := "result", is_error := false }]

/-- Witness for C6: two tool calls in one round, both succeed; both are
dispatched in order and the two messages are appended. -/
theorem claim_C6_witness :
    execute_tools_and_update_state exOracle twoToolResponse c6init
      { requests := [], dispatches := [] } = (true, c6st2, c6tr2, c6res2) ∧
    toolUseIds twoToolResponse.content ≠ [] ∧
    c6tr2.dispatches = ({ requests := [], dispatches := [] } : Trace).dispatches ++
      dispatchesOf twoToolResponse.content ∧
    c6res2.map ToolResultBlock.tool_use_id = toolUseIds twoToolResponse.content ∧
    c6st2.messages = c6init.messages ++
      [{ role := "assistant", content := MessageContent.blocks twoToolResponse.content },
       { role := "user", content := MessageContent.toolResults c6res2 }] :=
  ⟨rfl, by decide,
   (claim_C6_ordered_dispatch exOracle twoToolResponse c6init
     { requests := [], dispatches := [] } c6st2 c6tr2 c6res2 rfl (by decide)).1,
   (claim_C6_ordered_dispatch exOracle twoToolResponse c6init
     { requests := [], dispatches := [] } c6st2 c6tr2 c6res2 rfl (by decide)).2.1,
   (claim_C6_ordered_dispatch exOracle twoToolResponse c6init
     { requests := [], dispatches := [] } c6st2 c6tr2 c6res2 rfl (by decide)).2.2.2⟩

/-- State after the failing single-tool round (assistant message only). -/
def c7st2 : ConversationState :=
  { messages := [{ role := "user", content := .text "q" },
                 { role := "assistant", content := .blocks oneToolResponse.content }],
    system_prompt := systemContent none, round_count := 0, max_rounds := 2,
    tools := some ["search_course_content"], hasToolManager := true }

/-- Trace after the failing single-tool round. -/
def c7tr2 : Trace :=
  { requests := [],
    dispatches := [{ name := "search_course_content", input := [("query", "MCP")] }] }

/-- Local result list after the failing single-tool round. -/
def c7res2 : List ToolResultBlock :=
  [{ tool_use_id := "id1", content := "Tool execution failed: Search failed",
     is_error := true }]

/-- Witness for C7 (amended): on the failing dispatch, the message log gains
only the assistant tool-use message. -/
theorem claim_C7_witness :
    execute_tools_and_update_state toolFailOracle oneToolResponse c6init
      { requests := [], dispatches := [] } = (false, c7st2, c7tr2, c7res2) ∧
    c7st2.messages = c6init.messages ++
      [{ role := "assistant", content := MessageContent.blocks oneToolResponse.content }] :=
  ⟨rfl,
   (claim_C7_amended_error_block_not_logged toolFailOracle oneToolResponse c6init
     { requests := [], dispatches := [] } c7st2 c7tr2 c7res2 rfl).1⟩
